import Mathlib

/-!
Shallow embedding of the kis3 analytics engine (src/database.go): the event
recorder (trackView), the aggregate query builder (buildFilter, buildStatement
and the four per-field filter builders) and the query executor (request), with
a model of the external collaborators they use (the SQLite LIKE operator, the
database/sql row cursor and the net/url parser).  The theorems below settle
the frozen claims about this code.
-/

namespace Kis3

/-- Go type `View int`; the seven recognized constants are 1..7 but any
integer is a possible value, as in Go. -/
abbrev View := Int

def PAGES : View := 1

def REFERRERS : View := 2

def USERAGENTS : View := 3

def HOURS : View := 4

def DAYS : View := 5

def WEEKS : View := 6

def MONTHS : View := 7

/-- Go struct ViewsRequest (src/database.go lines 78-85).  The Go field
named from is written «from» because from is a Lean keyword. -/
structure ViewsRequest where
  view : View
  «from» : String
  «to» : String
  url : String
  ref : String
  ua : String
  deriving DecidableEq, Repr

/-- Go sql.NamedArg as produced by sql.Named(name, value); every value bound
by this program is a string. -/
structure NamedArg where
  name : String
  value : String
  deriving DecidableEq, Repr

/-- Go struct RequestResultRow (src/database.go lines 87-90). -/
structure RequestResultRow where
  First : String
  Second : Int
  deriving DecidableEq, Repr

/-- buildDateTimeFilter (src/database.go lines 175-190).  The Go function
appends its named arguments to a slice passed by pointer; here each builder
returns the clause together with the arguments it appends, and buildFilter
concatenates them in the same order as the Go call sequence. -/
def buildDateTimeFilter (request : ViewsRequest) : String × List NamedArg :=
  if 0 < request.«from».length ∧ 0 < request.«to».length then
    ("datetime(time, \x27localtime\x27) between :from and :to",
      [⟨"from", request.«from»⟩, ⟨"to", request.«to»⟩])
  else if 0 < request.«from».length then
    ("datetime(time, \x27localtime\x27) >= :from", [⟨"from", request.«from»⟩])
  else if 0 < request.«to».length then
    ("datetime(time, \x27localtime\x27) <= :to", [⟨"to", request.«to»⟩])
  else
    ("", [])

/-- buildUrlFilter (src/database.go lines 192-198). -/
def buildUrlFilter (request : ViewsRequest) : String × List NamedArg :=
  if 0 < request.url.length then
    ("url like :url", [⟨"url", "%" ++ request.url ++ "%"⟩])
  else
    ("", [])

/-- buildRefFilter (src/database.go lines 200-206). -/
def buildRefFilter (request : ViewsRequest) : String × List NamedArg :=
  if 0 < request.ref.length then
    ("ref like :ref", [⟨"ref", "%" ++ request.ref ++ "%"⟩])
  else
    ("", [])

/-- buildUseragentFilter (src/database.go lines 208-214). -/
def buildUseragentFilter (request : ViewsRequest) : String × List NamedArg :=
  if 0 < request.ua.length then
    ("useragent like :ua", [⟨"ua", "%" ++ request.ua ++ "%"⟩])
  else
    ("", [])

/-- buildFilter (src/database.go lines 158-173): collect the four clause
strings in order, keep the nonempty ones, join with " and "; the named
arguments accumulate in the same order the Go code appends them. -/
def buildFilter (request : ViewsRequest) : String × List NamedArg :=
  let dt := buildDateTimeFilter request
  let u := buildUrlFilter request
  let rf := buildRefFilter request
  let ug := buildUseragentFilter request
  let allFilters := [dt.1, u.1, rf.1, ug.1].filter fun f => 0 < f.length
  (String.intercalate " and " allFilters, dt.2 ++ u.2 ++ rf.2 ++ ug.2)

/-- buildStatement (src/database.go lines 123-154): the Go switch on
request.view, rendered as a chain of equality tests; a view value outside
the seven constants leaves the named return at its zero value "". -/
def buildStatement (request : ViewsRequest) (filters0 : String) : String :=
  let filters := if 0 < filters0.length then " where " ++ filters0 ++ " " else " "
  if request.view = PAGES then
    "SELECT url as first, count(*) as second from views" ++ filters ++ "group by url;"
  else if request.view = REFERRERS then
    "SELECT ref as first, count(*) as second from views" ++ filters ++ "group by ref;"
  else if request.view = USERAGENTS then
    "SELECT useragent as first, count(*) as second from views" ++ filters ++ "group by useragent;"
  else if request.view = HOURS ∨ request.view = DAYS ∨ request.view = WEEKS ∨ request.view = MONTHS then
    let format :=
      if request.view = HOURS then "%Y-%m-%d %H"
      else if request.view = DAYS then "%Y-%m-%d"
      else if request.view = WEEKS then "%Y-%W"
      else if request.view = MONTHS then "%Y-%m"
      else ""
    "SELECT strftime(\x27" ++ format ++ "\x27, time, \x27localtime\x27) as first, count(*) as second from views" ++ filters ++ "group by first;"
  else ""

/-- One step of the database/sql row cursor consumed by request: each
rows.Next() iteration either yields a row whose Scan succeeds with a
(string, int) pair, or a row whose Scan fails with an error message. -/
inductive ScanResult where
  | ok (first : String) (second : Int)
  | err (msg : String)
  deriving DecidableEq, Repr

/-- Outcome of one call to request: the named return values (resultRows, e)
of the Go function, with none modelling a nil slice, plus whether the code
called rows.Close() explicitly before returning (the cursor is otherwise
auto-released by the driver when iteration is exhausted). -/
structure RequestOutcome where
  resultRows : Option (List RequestResultRow)
  err : Option String
  closedExplicitly : Bool
  deriving DecidableEq, Repr

/-- The scan loop of request (src/database.go lines 106-118): append mapped
rows until the cursor ends or a Scan fails; on a Scan failure the Go code
calls rows.Close() and returns the named values as they stand, i.e. the
accumulator is returned untouched next to the error. -/
def runScan : List ScanResult → List RequestResultRow → List RequestResultRow × Option String × Bool
  | [], acc => (acc, none, false)
  | ScanResult.ok f s :: rest, acc => runScan rest (acc ++ [⟨f, s⟩])
  | ScanResult.err m :: _, acc => (acc, some m, true)

/-- request (src/database.go lines 92-121).  The database connection is the
external collaborator: it is modelled as a function from the statement text
and the bound parameters to either a query error or the cursor contents.  On
a query error the named return resultRows is still nil; on success it is
initialised to the empty slice before the scan loop runs. -/
def request (db : String → List NamedArg → Except String (List ScanResult))
    (r : ViewsRequest) : RequestOutcome :=
  let fp := buildFilter r
  let statement := buildStatement r fp.1
  match db statement fp.2 with
  | Except.error e => ⟨none, some e, false⟩
  | Except.ok rows =>
    let out := runScan rows []
    ⟨some out.1, out.2.1, out.2.2⟩

/-- Outcome of one call to trackView: nothing stored (empty url), a panic
(nil pointer dereference), or one row inserted with the given normalized
url, ref and useragent column values. -/
inductive TrackOutcome where
  | noop
  | panicNilDeref
  | inserted (url ref ua : String)
  deriving DecidableEq, Repr

/-- trackView (src/database.go lines 43-62).  The two external parsers are
parameters: parse models net/url.Parse reduced to what trackView reads from
it — none when Parse fails (Go then returns a nil pointer and the ignored
error), some h when it succeeds with Hostname() = h; browser models
user_agent.New(ua).Browser().  When ref is non-empty the Go code calls
parsedRef.Hostname() without checking the pointer, so a failed parse is a
nil pointer dereference, modelled by the panicNilDeref outcome. -/
def trackView (parse : String → Option String) (browser : String → String × String)
    (urlString ref ua : String) : TrackOutcome :=
  if urlString.length = 0 then
    TrackOutcome.noop
  else
    match (if ref ≠ "" then parse ref else some ref) with
    | none => TrackOutcome.panicNilDeref
    | some ref2 =>
      let ua2 := if ua ≠ "" then (browser ua).1 ++ " " ++ (browser ua).2 else ua
      TrackOutcome.inserted urlString ref2 ua2

/-- One documented failure condition of the external Go net/url.Parse: a raw
URL containing an ASCII control character (byte below 0x20, or 0x7f) is
always rejected, and Parse then returns a nil pointer. -/
def containsCTLByte (s : String) : Bool :=
  s.data.any fun c => c.toNat < 0x20 || c.toNat == 0x7f

/-- Model of the external net/url.Parse as consumed by trackView: none (a
nil pointer) on the control-character failure condition above; on success
only the fact that some URL value is returned matters to the claims settled
here, so the hostname of a successfully parsed string is left unmodelled
(the raw string is returned as a placeholder). -/
def urlParseModel (s : String) : Option String :=
  if containsCTLByte s then none else some s

/-- ASCII case folding as performed by the default SQLite LIKE operator:
upper-case A-Z fold to lower-case, every other character is untouched. -/
def foldChar (c : Char) : Char :=
  if 'A' ≤ c ∧ c ≤ 'Z' then Char.ofNat (c.toNat + 32) else c

/-- Model of the default SQLite LIKE matcher over character lists: a percent
sign matches any sequence (any suffix continuation), an underscore matches
exactly one character, any other pattern character matches one character up
to ASCII case folding on both sides; no ESCAPE clause is in effect. -/
def likeMatch : List Char → List Char → Bool
  | [], s => s.isEmpty
  | c :: ps, s =>
    if c = '%' then s.tails.any fun t => likeMatch ps t
    else
      match s with
      | [] => false
      | d :: t => (if c = '_' then true else foldChar c == foldChar d) && likeMatch ps t

/-- The SQLite expression (column LIKE pattern) under the default
case-insensitive ASCII collation, on whole strings. -/
def sqliteLike (p s : String) : Bool :=
  likeMatch p.data s.data

/-- needle begins the list hay (plain character-for-character equality). -/
def beginsWith : List Char → List Char → Bool
  | [], _ => true
  | _ :: _, [] => false
  | a :: needle, b :: hay => (a == b) && beginsWith needle hay

/-- needle occurs contiguously somewhere inside hay (literal substring). -/
def substr (needle hay : List Char) : Bool :=
  hay.tails.any fun t => beginsWith needle t

/-- The statement emitted for the four time-bucketed views, as a function of
the strftime format string, stated the way the spec table describes it. -/
def timeBucketStatement (format filters0 : String) : String :=
  "SELECT strftime(\x27" ++ format ++ "\x27, time, \x27localtime\x27) as first, count(*) as second from views" ++
    (if 0 < filters0.length then " where " ++ filters0 ++ " " else " ") ++ "group by first;"

/-- The list of active predicate clauses of a request stated the way the
spec describes filter composition: one clause per active filter, in the
fixed order datetime, url, ref, ua, and nothing for an absent filter. -/
def specActiveClauses (r : ViewsRequest) : List String :=
  (if 0 < r.«from».length ∧ 0 < r.«to».length then
      ["datetime(time, \x27localtime\x27) between :from and :to"]
    else if 0 < r.«from».length then ["datetime(time, \x27localtime\x27) >= :from"]
    else if 0 < r.«to».length then ["datetime(time, \x27localtime\x27) <= :to"]
    else []) ++
  (if 0 < r.url.length then ["url like :url"] else []) ++
  (if 0 < r.ref.length then ["ref like :ref"] else []) ++
  (if 0 < r.ua.length then ["useragent like :ua"] else [])

/-! Helper lemmas shared by several of the claim theorems below. -/

/-- buildStatement reads nothing of the request beyond its view field. -/
theorem buildStatement_view_only (r1 r2 : ViewsRequest) (f : String)
    (h : r1.view = r2.view) : buildStatement r1 f = buildStatement r2 f := by
  simp only [buildStatement, h]

/-- The default branch of the view switch: a view equal to none of the seven
constants leaves the named return at its zero value, the empty string. -/
theorem buildStatement_default_empty (r : ViewsRequest) (f : String)
    (h1 : r.view ≠ PAGES) (h2 : r.view ≠ REFERRERS) (h3 : r.view ≠ USERAGENTS)
    (h4 : r.view ≠ HOURS) (h5 : r.view ≠ DAYS) (h6 : r.view ≠ WEEKS)
    (h7 : r.view ≠ MONTHS) : buildStatement r f = "" := by
  simp [buildStatement, h1, h2, h3, h4, h5, h6, h7]

/-- A lone percent pattern accepts every string: some tail (the empty one)
is accepted by the empty pattern. -/
theorem likeMatch_nil_tails (t : List Char) :
    (t.tails.any fun x => likeMatch [] x) = true := by
  induction t with
  | nil => rfl
  | cons c t ih => simp only [List.tails_cons, List.any_cons, ih, Bool.or_true]

/-- Matching a wildcard-free literal followed by a trailing percent consumes
exactly a prefix equal to the literal up to ASCII case folding. -/
theorem likeMatch_literal_prefix (v : List Char) (hp : '%' ∉ v) (hu : '_' ∉ v) :
    ∀ t : List Char,
      likeMatch (v ++ ['%']) t = beginsWith (v.map foldChar) (t.map foldChar) := by
  induction v with
  | nil =>
    intro t
    simp [likeMatch, beginsWith, likeMatch_nil_tails]
  | cons c v ih =>
    have hc1 : c ≠ '%' := by intro h; exact hp (by simp [h])
    have hc2 : c ≠ '_' := by intro h; exact hu (by simp [h])
    have hp' : '%' ∉ v := by intro h; exact hp (List.mem_cons_of_mem c h)
    have hu' : '_' ∉ v := by intro h; exact hu (List.mem_cons_of_mem c h)
    intro t
    cases t with
    | nil => simp [likeMatch, beginsWith, hc1]
    | cons d t => simp [likeMatch, beginsWith, hc1, hc2, ih hp' hu' t]

/-- Claim C5: a trackView call with an empty url is a silent no-op: nothing
is inserted, no error is raised, and neither the referrer parser nor the
user-agent parser is consulted (the outcome is noop for every parse and
browser function). -/
theorem trackView_empty_url_noop (parse : String → Option String)
    (browser : String → String × String) (ref ua : String) :
    trackView parse browser "" ref ua = TrackOutcome.noop := rfl

/-- Claim C3: the code contradicts the intended malformed-referrer
behavior.  When net/url.Parse rejects the referrer it returns a nil pointer
(modelled: parse ref = none); trackView then calls Hostname() on that nil
pointer, a panic, instead of storing an empty hostname. -/
theorem trackView_malformed_ref_panics (parse : String → Option String)
    (browser : String → String × String)
    (hparse : parse "http://e\x01" = none) :
    trackView parse browser "/page" "http://e\x01" "" = TrackOutcome.panicNilDeref := by
  have hlen : ¬ "/page".length = 0 := by decide
  simp [trackView, hlen, hparse]

/-- Witness for C3 at the concrete model of net/url.Parse: the referrer
contains an ASCII control character, so Parse rejects it and the recorder
dereferences a nil pointer. -/
theorem trackView_malformed_ref_panics_witness :
    urlParseModel "http://e\x01" = none ∧
      trackView urlParseModel (fun _ => ("", "")) "/page" "http://e\x01" "" =
        TrackOutcome.panicNilDeref :=
  ⟨by decide, trackView_malformed_ref_panics urlParseModel (fun _ => ("", "")) (by decide)⟩

/-- Claim C10: a successful query with zero matching rows yields the empty
but non-nil slice (resultRows was initialised before the scan loop) and a
nil error, distinguishable from the nil slice of the query-failure path. -/
theorem request_zero_rows_nonnil
    (db : String → List NamedArg → Except String (List ScanResult))
    (r : ViewsRequest)
    (h : db (buildStatement r (buildFilter r).1) (buildFilter r).2 = Except.ok []) :
    request db r = ⟨some [], none, false⟩ ∧
      (some ([] : List RequestResultRow)) ≠ none := by
  refine ⟨?_, by simp⟩
  simp [request, h, runScan]

/-- Witness for C10 at a database returning an empty cursor. -/
theorem request_zero_rows_nonnil_witness :
    request (fun _ _ => Except.ok []) ⟨1, "", "", "", "", ""⟩ =
        ⟨some [], none, false⟩ ∧
      (some ([] : List RequestResultRow)) ≠ none :=
  request_zero_rows_nonnil (fun _ _ => Except.ok []) ⟨1, "", "", "", "", ""⟩ rfl

/-- Counterexample to claim C2 as stated: at a cursor whose first row scans
fine and whose second row fails to scan, the function returns the error and
does release the cursor, but the partial result set is not discarded — the
named return still holds the already-collected row when the function
returns, rather than an empty or nil slice. -/
theorem request_scan_error_returns_partial :
    request (fun _ _ => Except.ok [ScanResult.ok "/a" 1, ScanResult.err "scan failed"])
        ⟨1, "", "", "", "", ""⟩ =
      ⟨some [⟨"/a", 1⟩], some "scan failed", true⟩ ∧
      some [(⟨"/a", 1⟩ : RequestResultRow)] ≠ some ([] : List RequestResultRow) ∧
      some [(⟨"/a", 1⟩ : RequestResultRow)] ≠ (none : Option (List RequestResultRow)) := by
  decide

/-- Claim C2 as amended: when a scan fails after any run of well-scanned
rows, the error is surfaced and the cursor is closed explicitly before
returning, but the rows collected before the failure are returned as they
stand next to the error (Go callers are expected to disregard them). -/
theorem request_scan_error_surfaces
    (db : String → List NamedArg → Except String (List ScanResult))
    (r : ViewsRequest) (oks : List (String × Int)) (m : String)
    (rest : List ScanResult)
    (h : db (buildStatement r (buildFilter r).1) (buildFilter r).2 =
      Except.ok (oks.map (fun p => ScanResult.ok p.1 p.2) ++ ScanResult.err m :: rest)) :
    request db r =
      ⟨some (oks.map fun p => ⟨p.1, p.2⟩), some m, true⟩ := by
  have aux : ∀ (l : List (String × Int)) (acc : List RequestResultRow),
      runScan (l.map (fun p => ScanResult.ok p.1 p.2) ++ ScanResult.err m :: rest) acc =
        (acc ++ l.map fun p => ⟨p.1, p.2⟩, some m, true) := by
    intro l
    induction l with
    | nil => intro acc; simp [runScan]
    | cons p l ih => intro acc; simp [runScan, ih]
  simp [request, h, aux oks []]

/-- Witness for the amended C2 at a one-good-row-then-failure cursor. -/
theorem request_scan_error_surfaces_witness :
    request (fun _ _ => Except.ok [ScanResult.ok "/b" 2, ScanResult.err "e"])
        ⟨2, "", "", "", "", ""⟩ =
      ⟨some [⟨"/b", 2⟩], some "e", true⟩ :=
  request_scan_error_surfaces (fun _ _ => Except.ok [ScanResult.ok "/b" 2, ScanResult.err "e"])
    ⟨2, "", "", "", "", ""⟩ [("/b", 2)] "e" [] rfl

/-- Claim C6: the date-time filter emits the inclusive between-clause
binding from then to when both bounds are set, the matching one-sided
inequality when exactly one is set, and no clause and no parameters when
neither is set. -/
theorem buildDateTimeFilter_cases (r : ViewsRequest) :
    (0 < r.«from».length → 0 < r.«to».length →
      buildDateTimeFilter r = ("datetime(time, \x27localtime\x27) between :from and :to",
        [⟨"from", r.«from»⟩, ⟨"to", r.«to»⟩])) ∧
    (0 < r.«from».length → r.«to».length = 0 →
      buildDateTimeFilter r = ("datetime(time, \x27localtime\x27) >= :from",
        [⟨"from", r.«from»⟩])) ∧
    (r.«from».length = 0 → 0 < r.«to».length →
      buildDateTimeFilter r = ("datetime(time, \x27localtime\x27) <= :to",
        [⟨"to", r.«to»⟩])) ∧
    (r.«from».length = 0 → r.«to».length = 0 →
      buildDateTimeFilter r = ("", [])) := by
  refine ⟨fun h1 h2 => ?_, fun h1 h2 => ?_, fun h1 h2 => ?_, fun h1 h2 => ?_⟩ <;>
    simp [buildDateTimeFilter, h1, h2]

/-- Witness for C6 in the both-bounds case. -/
theorem buildDateTimeFilter_cases_witness :
    buildDateTimeFilter ⟨4, "2020-01-01 00:00:00", "2020-12-31 23:59:59", "", "", ""⟩ =
      ("datetime(time, \x27localtime\x27) between :from and :to",
        [⟨"from", "2020-01-01 00:00:00"⟩, ⟨"to", "2020-12-31 23:59:59"⟩]) :=
  (buildDateTimeFilter_cases ⟨4, "2020-01-01 00:00:00", "2020-12-31 23:59:59", "", "", ""⟩).1
    (by decide) (by decide)

/-- Claim C8: each time-bucketed view groups by the event time rendered in
local time with exactly the specified strftime format — HOURS by
YYYY-MM-DD HH, DAYS by YYYY-MM-DD, WEEKS by YYYY-week, MONTHS by YYYY-MM —
counting rows per distinct bucket (group by first with count). -/
theorem buildStatement_time_buckets (r : ViewsRequest) (filters : String) :
    (r.view = HOURS →
      buildStatement r filters = timeBucketStatement "%Y-%m-%d %H" filters) ∧
    (r.view = DAYS →
      buildStatement r filters = timeBucketStatement "%Y-%m-%d" filters) ∧
    (r.view = WEEKS →
      buildStatement r filters = timeBucketStatement "%Y-%W" filters) ∧
    (r.view = MONTHS →
      buildStatement r filters = timeBucketStatement "%Y-%m" filters) := by
  refine ⟨fun h => ?_, fun h => ?_, fun h => ?_, fun h => ?_⟩ <;>
    simp [buildStatement, timeBucketStatement, h, PAGES, REFERRERS, USERAGENTS,
      HOURS, DAYS, WEEKS, MONTHS]

/-- Witness for C8 at the HOURS view with a nonempty filter string. -/
theorem buildStatement_time_buckets_witness :
    buildStatement ⟨4, "", "", "", "", ""⟩ "url like :url" =
      timeBucketStatement "%Y-%m-%d %H" "url like :url" :=
  (buildStatement_time_buckets ⟨4, "", "", "", "", ""⟩ "url like :url").1 rfl

/-- Claim C9: the statement builder is total; a view value outside the
seven recognized constants falls through the switch and yields the empty
statement rather than an error, whatever the filters. -/
theorem buildStatement_total_unknown_view (r : ViewsRequest) (filters : String)
    (h : r.view ∉ ([PAGES, REFERRERS, USERAGENTS, HOURS, DAYS, WEEKS, MONTHS] : List View)) :
    buildStatement r filters = "" := by
  simp only [List.mem_cons, List.not_mem_nil, or_false, not_or] at h
  exact buildStatement_default_empty r filters h.1 h.2.1 h.2.2.1 h.2.2.2.1
    h.2.2.2.2.1 h.2.2.2.2.2.1 h.2.2.2.2.2.2

/-- Witness for C9 at the unused zero view value. -/
theorem buildStatement_total_unknown_view_witness :
    buildStatement ⟨0, "", "", "", "", ""⟩ "url like :url" = "" :=
  buildStatement_total_unknown_view ⟨0, "", "", "", "", ""⟩ "url like :url" (by decide)

/-- Claim C1: the statement text never embeds a filter value — it is a
function of the view and of which filter fields are non-empty only, so two
requests agreeing on those produce character-for-character the same query
text whatever the values of from, to, url, ref and ua. -/
theorem statement_text_value_independent (r1 r2 : ViewsRequest)
    (hv : r1.view = r2.view)
    (hfrom : 0 < r1.«from».length ↔ 0 < r2.«from».length)
    (hto : 0 < r1.«to».length ↔ 0 < r2.«to».length)
    (hurl : 0 < r1.url.length ↔ 0 < r2.url.length)
    (href : 0 < r1.ref.length ↔ 0 < r2.ref.length)
    (hua : 0 < r1.ua.length ↔ 0 < r2.ua.length) :
    buildStatement r1 (buildFilter r1).1 = buildStatement r2 (buildFilter r2).1 := by
  have hf : (buildFilter r1).1 = (buildFilter r2).1 := by
    by_cases c1 : 0 < r1.«from».length <;> by_cases c2 : 0 < r1.«to».length <;>
      by_cases c3 : 0 < r1.url.length <;> by_cases c4 : 0 < r1.ref.length <;>
        by_cases c5 : 0 < r1.ua.length <;>
      simp_all [buildFilter, buildDateTimeFilter, buildUrlFilter, buildRefFilter,
        buildUseragentFilter]
  rw [hf]
  exact buildStatement_view_only r1 r2 (buildFilter r2).1 hv

/-- Witness for C1: same shape, different values — the url value of the
second request is the injection probe from the spec — yet the texts
coincide. -/
theorem statement_text_value_independent_witness :
    buildStatement ⟨1, "2020-01-01", "", "blog", "", ""⟩
        (buildFilter ⟨1, "2020-01-01", "", "blog", "", ""⟩).1 =
      buildStatement ⟨1, "1999-12-31", "", "a\x27 OR \x271\x27=\x271", "", ""⟩
        (buildFilter ⟨1, "1999-12-31", "", "a\x27 OR \x271\x27=\x271", "", ""⟩).1 :=
  statement_text_value_independent
    ⟨1, "2020-01-01", "", "blog", "", ""⟩
    ⟨1, "1999-12-31", "", "a\x27 OR \x271\x27=\x271", "", ""⟩
    rfl (by decide) (by decide) (by decide) (by decide) (by decide)

/-- With an empty filter string no view emits the word where anywhere in
its statement text. -/
theorem no_where_when_no_filters (r : ViewsRequest) :
    substr "where".data (buildStatement r "").data = false := by
  by_cases v1 : r.view = PAGES
  · rw [buildStatement_view_only r ⟨PAGES, "", "", "", "", ""⟩ "" v1]
    decide
  · by_cases v2 : r.view = REFERRERS
    · rw [buildStatement_view_only r ⟨REFERRERS, "", "", "", "", ""⟩ "" v2]
      decide
    · by_cases v3 : r.view = USERAGENTS
      · rw [buildStatement_view_only r ⟨USERAGENTS, "", "", "", "", ""⟩ "" v3]
        decide
      · by_cases v4 : r.view = HOURS
        · rw [buildStatement_view_only r ⟨HOURS, "", "", "", "", ""⟩ "" v4]
          decide
        · by_cases v5 : r.view = DAYS
          · rw [buildStatement_view_only r ⟨DAYS, "", "", "", "", ""⟩ "" v5]
            decide
          · by_cases v6 : r.view = WEEKS
            · rw [buildStatement_view_only r ⟨WEEKS, "", "", "", "", ""⟩ "" v6]
              decide
            · by_cases v7 : r.view = MONTHS
              · rw [buildStatement_view_only r ⟨MONTHS, "", "", "", "", ""⟩ "" v7]
                decide
              · rw [buildStatement_default_empty r "" v1 v2 v3 v4 v5 v6 v7]
                decide

/-- Claim C7: the filter string is exactly the active clauses, in the fixed
order datetime, url, ref, ua, joined with the word and; and when zero
clauses are active the emitted statement contains no where clause at all. -/
theorem buildFilter_and_structure (r : ViewsRequest) :
    (buildFilter r).1 = String.intercalate " and " (specActiveClauses r) ∧
    (specActiveClauses r = [] →
      substr "where".data (buildStatement r (buildFilter r).1).data = false) := by
  have hlist : ([(buildDateTimeFilter r).1, (buildUrlFilter r).1, (buildRefFilter r).1,
      (buildUseragentFilter r).1].filter fun f => 0 < f.length) = specActiveClauses r := by
    by_cases c1 : 0 < r.«from».length <;> by_cases c2 : 0 < r.«to».length <;>
      by_cases c3 : 0 < r.url.length <;> by_cases c4 : 0 < r.ref.length <;>
        by_cases c5 : 0 < r.ua.length <;>
      simp_all [buildDateTimeFilter, buildUrlFilter, buildRefFilter,
        buildUseragentFilter, specActiveClauses] <;> decide
  have hmain : (buildFilter r).1 = String.intercalate " and " (specActiveClauses r) := by
    rw [← hlist]
    simp [buildFilter]
  refine ⟨hmain, fun h => ?_⟩
  rw [hmain, h]
  exact no_where_when_no_filters r

/-- Witness for C7 at an all-empty request: the filter string is empty and
the PAGES statement carries no where clause. -/
theorem buildFilter_and_structure_witness :
    (buildFilter ⟨1, "", "", "", "", ""⟩).1 =
        String.intercalate " and " (specActiveClauses ⟨1, "", "", "", "", ""⟩) ∧
      substr "where".data
        (buildStatement ⟨1, "", "", "", "", ""⟩ (buildFilter ⟨1, "", "", "", "", ""⟩).1).data =
        false :=
  ⟨(buildFilter_and_structure ⟨1, "", "", "", "", ""⟩).1,
    (buildFilter_and_structure ⟨1, "", "", "", "", ""⟩).2 (by decide)⟩

/-- Counterexample to claim C4 as stated: the builders pass the raw value
between percent signs into a LIKE pattern without escaping, so a value made
of LIKE metacharacters is not matched literally — the value percent matches
the stored string abc which does not contain a percent at all (and, with
the default ASCII-case-insensitive LIKE, the value a matches the stored
string ABC which does not contain a lower-case a). -/
theorem urlFilter_wildcard_counterexample :
    buildUrlFilter ⟨1, "", "", "%", "", ""⟩ = ("url like :url", [⟨"url", "%%%"⟩]) ∧
    sqliteLike "%%%" "abc" = true ∧ substr "%".data "abc".data = false ∧
    sqliteLike "%a%" "ABC" = true ∧ substr "a".data "ABC".data = false := by
  decide

/-- Claim C4 as amended: quote characters and SQL syntax in a filter value
cannot alter the statement — the value travels only as the bound pattern
percent-value-percent — and for values free of the LIKE wildcards percent
and underscore the filter is exactly a substring-contains match up to the
ASCII case folding of the default SQLite LIKE; values containing percent or
underscore are instead interpreted as wildcards. -/
theorem filters_literal_substring (r : ViewsRequest) (v s : String)
    (hp : '%' ∉ v.data) (hu : '_' ∉ v.data) :
    (0 < r.url.length →
      buildUrlFilter r = ("url like :url", [⟨"url", "%" ++ r.url ++ "%"⟩])) ∧
    (0 < r.ref.length →
      buildRefFilter r = ("ref like :ref", [⟨"ref", "%" ++ r.ref ++ "%"⟩])) ∧
    (0 < r.ua.length →
      buildUseragentFilter r = ("useragent like :ua", [⟨"ua", "%" ++ r.ua ++ "%"⟩])) ∧
    sqliteLike ("%" ++ v ++ "%") s =
      substr (v.data.map foldChar) (s.data.map foldChar) := by
  refine ⟨fun h => by simp [buildUrlFilter, h], fun h => by simp [buildRefFilter, h],
    fun h => by simp [buildUseragentFilter, h], ?_⟩
  have hdata : ("%" ++ v ++ "%").data = '%' :: (v.data ++ ['%']) := rfl
  simp only [sqliteLike]
  rw [hdata]
  have hstar : likeMatch ('%' :: (v.data ++ ['%'])) s.data =
      (s.data.tails.any fun t => likeMatch (v.data ++ ['%']) t) := by
    simp [likeMatch]
  rw [hstar]
  have hlit := likeMatch_literal_prefix v.data hp hu
  simp only [hlit]
  simp only [substr]
  rw [List.map_tails, List.any_map]
  rfl

/-- Witness for the amended C4 at the substring example of the spec: the
filter value blog against a stored URL containing blog as a substring. -/
theorem filters_literal_substring_witness :
    buildUrlFilter ⟨1, "", "", "blog", "", ""⟩ =
        ("url like :url", [⟨"url", "%blog%"⟩]) ∧
      sqliteLike "%blog%" "https://site/blog/post1" =
        substr ("blog".data.map foldChar)
          ("https://site/blog/post1".data.map foldChar) :=
  ⟨(filters_literal_substring ⟨1, "", "", "blog", "", ""⟩ "blog" "https://site/blog/post1"
      (by decide) (by decide)).1 (by decide),
    (filters_literal_substring ⟨1, "", "", "blog", "", ""⟩ "blog" "https://site/blog/post1"
      (by decide) (by decide)).2.2.2⟩

end Kis3
